import Mathlib

/-!
Verification of the `api` HTTP application server (route matching, parameter
binding, middleware pipeline, transport parsing, response serialization).

The Python source is shallowly embedded: each Python function used by the
claims is transcribed into an executable Lean definition of the same name
(modulo Lean naming rules).  `datetime` timestamps are embedded as `Int`
seconds; `timedelta(seconds=s)` is `s` and `timedelta(minutes=m)` is `60*m`.
Python dictionaries keyed by client IP are embedded as functions
`String → Option _`.  Python floats never decide any claim, so a float value
is carried as the source text accepted by `float(...)`.
-/

namespace PyApi

/-- Single-quote character, used inside error-message strings. -/
def sq : String := String.singleton (Char.ofNat 39)

/-- Left/right brace characters as strings. -/
def lbrace : String := "\x7b"

def rbrace : String := "\x7d"

/-- The brace characters themselves. -/
def lbraceChar : Char := Char.ofNat 123

def rbraceChar : Char := Char.ofNat 125

/-- Python `str.strip()` (whitespace strip on both ends), implemented over
the character list so it evaluates by reduction. -/
def pyStrip (s : String) : String :=
  String.mk (((s.data.dropWhile Char.isWhitespace).reverse.dropWhile Char.isWhitespace).reverse)

/-- Python `str.strip(c)` for a single strip character. -/
def pyStripChar (c : Char) (s : String) : String :=
  String.mk (((s.data.dropWhile (· = c)).reverse.dropWhile (· = c)).reverse)

/-- Python `str.lower()` (ASCII case folding suffices for this code base). -/
def pyLower (s : String) : String := String.mk (s.data.map Char.toLower)

/-- Python `str.upper()`. -/
def pyUpper (s : String) : String := String.mk (s.data.map Char.toUpper)

/-- Python `str.startswith(pre)`. -/
def pyStartsWith (s pre : String) : Bool := pre.data.isPrefixOf s.data

/-- Python `str.endswith(suf)`. -/
def pyEndsWith (s suf : String) : Bool := suf.data.reverse.isPrefixOf s.data.reverse

/-- `s[n:]` for a nonnegative index. -/
def pyDropLeft (s : String) (n : Nat) : String := String.mk (s.data.drop n)

/-- `s[:-n]`. -/
def pyDropRight (s : String) (n : Nat) : String :=
  String.mk ((s.data.reverse.drop n).reverse)

/-- Python `s.split(sep)` for a single-character separator (all splits). -/
def splitCharAll (sep : Char) : List Char → List (List Char)
  | [] => [[]]
  | c :: cs =>
    if c = sep then [] :: splitCharAll sep cs
    else match splitCharAll sep cs with
      | [] => [[c]]
      | g :: gs => (c :: g) :: gs

/-- Python `s.split(CRLF)` on the two-character separator. -/
def splitCRLF : List Char → List (List Char)
  | [] => [[]]
  | '\r' :: '\n' :: cs => [] :: splitCRLF cs
  | c :: cs => match splitCRLF cs with
    | [] => [[c]]
    | g :: gs => (c :: g) :: gs

/-- Python `str.isdigit()` restricted to ASCII digits (the only digits the
claims exercise). -/
def pyIsDigit (s : String) : Bool := s.length > 0 && s.data.all Char.isDigit

/-- Numeric value of an ASCII digit string. -/
def digitsVal (cs : List Char) : Nat :=
  cs.foldl (fun a c => a * 10 + (c.toNat - 48)) 0

/-- Python `int(s)` on a string already known to be sign+digits. -/
def pyIntOfDigits (s : String) : Int :=
  match s.data with
  | '-' :: rest => -(digitsVal rest : Int)
  | '+' :: rest => (digitsVal rest : Int)
  | cs => (digitsVal cs : Int)

/-- Python `int(s)` for arbitrary strings: strips whitespace, accepts an
optional sign followed by at least one ASCII digit, otherwise fails
(models the `ValueError`). -/
def pyIntParse (s : String) : Option Int :=
  let t := pyStrip s
  match t.data with
  | '-' :: rest => if rest ≠ [] && rest.all Char.isDigit then some (-(digitsVal rest : Int)) else none
  | '+' :: rest => if rest ≠ [] && rest.all Char.isDigit then some ((digitsVal rest : Int)) else none
  | cs => if cs ≠ [] && cs.all Char.isDigit then some ((digitsVal cs : Int)) else none

/-- Recognizer for the digits-dot-digits-exponent part of a Python float
literal (after an optional sign): `digits [. digits] [e digits]`,
`. digits [e digits]`.  `inf`/`nan` forms are handled by the caller. -/
def floatBody (cs : List Char) : Bool :=
  let intPart := cs.takeWhile Char.isDigit
  let rest := cs.dropWhile Char.isDigit
  let (fracOk, rest2) :=
    match rest with
    | '.' :: r =>
      let frac := r.takeWhile Char.isDigit
      (intPart ≠ [] || frac ≠ [], r.dropWhile Char.isDigit)
    | r => (intPart ≠ [], r)
  let expOk :=
    match rest2 with
    | [] => true
    | 'e' :: r | 'E' :: r =>
      (match r with
       | '+' :: d | '-' :: d => d ≠ [] && d.all Char.isDigit
       | d => d ≠ [] && d.all Char.isDigit)
    | _ => false
  fracOk && expOk

/-- Python `float(s)` success test: strips whitespace, optional sign, then a
numeric body or `inf`/`infinity`/`nan` (case-insensitive). -/
def pyFloatAccepts (s : String) : Bool :=
  let t := pyLower (pyStrip s)
  let body :=
    match t.data with
    | '+' :: r | '-' :: r => r
    | r => r
  let bs := String.mk body
  bs = "inf" || bs = "infinity" || bs = "nan" || floatBody body

/-- Embedded Python/JSON values.  `float s` abstracts a Python float as the
source text it was parsed from (no claim compares float values).
`reqObj` is the request object bound to a parameter named `request`;
`modelVal` is a validated typed-model instance built from a JSON body. -/
inductive Value where
  | nullV : Value
  | boolV : Bool → Value
  | intV : Int → Value
  | floatV : String → Value
  | strV : String → Value
  | listV : List Value → Value
  | objV : List (String × Value) → Value
  | tupleV : List Value → Value
  | setV : List Value → Value
  | reqObj : Value
  | modelVal : String → Value → Value
deriving Repr

/-- JSON string escaping as `json.dumps` performs it for the ASCII strings
this code base emits: quote, backslash and control characters are escaped,
other ASCII characters pass through. -/
def jsonEscapeChar (c : Char) : String :=
  if c = '"' then "\\\""
  else if c = '\\' then "\\\\"
  else if c = '\n' then "\\n"
  else if c = '\r' then "\\r"
  else if c = '\t' then "\\t"
  else if c.toNat < 32 then
    "\\u00" ++ String.singleton (Nat.digitChar (c.toNat / 16)) ++
      String.singleton (Nat.digitChar (c.toNat % 16))
  else String.singleton c

def jsonEscape (s : String) : String :=
  s.data.foldl (fun acc c => acc ++ jsonEscapeChar c) ""

mutual

/-- `json.dumps` with its default separators.  Returns `none` where Python
would raise `TypeError` (sets, validated models, the request object);
tuples serialize as arrays, as in Python. -/
def jsonDumps : Value → Option String
  | .nullV => some "null"
  | .boolV b => some (if b then "true" else "false")
  | .intV n => some (toString n)
  | .floatV s => some s
  | .strV s => some ("\"" ++ jsonEscape s ++ "\"")
  | .listV l => (jsonDumpsList l).map (fun body => "[" ++ body ++ "]")
  | .tupleV l => (jsonDumpsList l).map (fun body => "[" ++ body ++ "]")
  | .objV l => (jsonDumpsFields l).map (fun body => lbrace ++ body ++ rbrace)
  | .setV _ => none
  | .reqObj => none
  | .modelVal _ _ => none

def jsonDumpsList : List Value → Option String
  | [] => some ""
  | [v] => jsonDumps v
  | v :: w :: rest => do
    let a ← jsonDumps v
    let b ← jsonDumpsList (w :: rest)
    pure (a ++ ", " ++ b)

def jsonDumpsFields : List (String × Value) → Option String
  | [] => some ""
  | [(k, v)] => (jsonDumps v).map (fun a => "\"" ++ jsonEscape k ++ "\": " ++ a)
  | (k, v) :: w :: rest => do
    let a ← jsonDumps v
    let b ← jsonDumpsFields (w :: rest)
    pure ("\"" ++ jsonEscape k ++ "\": " ++ a ++ ", " ++ b)

end

/-- JSON whitespace skip. -/
def skipWs (cs : List Char) : List Char :=
  cs.dropWhile (fun c => c = ' ' || c = '\t' || c = '\n' || c = '\r')

/-- Parse the contents of a JSON string literal (after the opening quote),
returning the decoded characters and the input past the closing quote. -/
def parseStringBody : List Char → Option (List Char × List Char)
  | [] => none
  | '"' :: rest => some ([], rest)
  | '\\' :: e :: rest =>
    match e with
    | '"' => (parseStringBody rest).map (fun (s, r) => ('"' :: s, r))
    | '\\' => (parseStringBody rest).map (fun (s, r) => ('\\' :: s, r))
    | '/' => (parseStringBody rest).map (fun (s, r) => ('/' :: s, r))
    | 'b' => (parseStringBody rest).map (fun (s, r) => (Char.ofNat 8 :: s, r))
    | 'f' => (parseStringBody rest).map (fun (s, r) => (Char.ofNat 12 :: s, r))
    | 'n' => (parseStringBody rest).map (fun (s, r) => ('\n' :: s, r))
    | 'r' => (parseStringBody rest).map (fun (s, r) => ('\r' :: s, r))
    | 't' => (parseStringBody rest).map (fun (s, r) => ('\t' :: s, r))
    | 'u' =>
      match rest with
      | a :: b :: c :: d :: rest2 =>
        if [a, b, c, d].all (fun x => x.isDigit || ('a' ≤ x && x ≤ 'f') || ('A' ≤ x && x ≤ 'F')) then
          let hv := fun (x : Char) =>
            if x.isDigit then x.toNat - 48
            else if 'a' ≤ x && x ≤ 'f' then x.toNat - 87 else x.toNat - 55
          let n := ((hv a * 16 + hv b) * 16 + hv c) * 16 + hv d
          (parseStringBody rest2).map (fun (s, r) => (Char.ofNat n :: s, r))
        else none
      | _ => none
    | _ => none
  | c :: rest => (parseStringBody rest).map (fun (s, r) => (c :: s, r))

/-- Parse a JSON number starting at the input head; returns the value and
the remaining input.  Integers (no fraction, no exponent) become `intV`;
anything else becomes `floatV` of its source text. -/
def parseNumber (cs : List Char) : Option (Value × List Char) :=
  let (sign, cs1) := match cs with
    | '-' :: r => (true, r)
    | r => (false, r)
  let intDigits := cs1.takeWhile Char.isDigit
  if intDigits = [] then none
  else if intDigits.length > 1 && intDigits.headD '0' = '0' then none
  else
    let cs2 := cs1.dropWhile Char.isDigit
    let (fracTxt, cs3) :=
      match cs2 with
      | '.' :: r =>
        let d := r.takeWhile Char.isDigit
        if d = [] then ([], cs2) else ('.' :: d, r.dropWhile Char.isDigit)
      | _ => ([], cs2)
    let (expTxt, cs4) :=
      match cs3 with
      | 'e' :: r | 'E' :: r =>
        let (sgn, r2) := match r with
          | '+' :: q => (['+'], q)
          | '-' :: q => (['-'], q)
          | q => ([], q)
        let d := r2.takeWhile Char.isDigit
        if d = [] then ([], cs3) else ('e' :: sgn ++ d, r2.dropWhile Char.isDigit)
      | _ => ([], cs3)
    if fracTxt = [] && expTxt = [] then
      let n : Int := if sign then -(digitsVal intDigits : Int) else (digitsVal intDigits : Int)
      some (.intV n, cs2)
    else
      let txt := (if sign then ['-'] else []) ++ intDigits ++ fracTxt ++ expTxt
      some (.floatV (String.mk txt), cs4)

mutual

/-- Recursive-descent JSON value parser (fuel-indexed; callers pass the
input length, which bounds the recursion depth). -/
def parseJsonVal : Nat → List Char → Option (Value × List Char)
  | 0, _ => none
  | fuel + 1, cs =>
    match skipWs cs with
    | 'n' :: 'u' :: 'l' :: 'l' :: rest => some (.nullV, rest)
    | 't' :: 'r' :: 'u' :: 'e' :: rest => some (.boolV true, rest)
    | 'f' :: 'a' :: 'l' :: 's' :: 'e' :: rest => some (.boolV false, rest)
    | '"' :: rest => (parseStringBody rest).map (fun (s, r) => (.strV (String.mk s), r))
    | '[' :: rest =>
      (match skipWs rest with
       | ']' :: r => some (.listV [], r)
       | _ => (parseArrayItems fuel rest).map (fun (l, r) => (.listV l, r)))
    | c :: rest =>
      if c = lbraceChar then
        (match skipWs rest with
         | d :: r =>
           if d = rbraceChar then some (.objV [], r)
           else (parseObjItems fuel rest).map (fun (l, r') => (.objV l, r'))
         | [] => none)
      else parseNumber (c :: rest)
    | [] => none

def parseArrayItems : Nat → List Char → Option (List Value × List Char)
  | 0, _ => none
  | fuel + 1, cs => do
    let (v, rest) ← parseJsonVal fuel cs
    match skipWs rest with
    | ',' :: rest2 => (parseArrayItems fuel rest2).map (fun (l, r) => (v :: l, r))
    | ']' :: rest2 => some ([v], rest2)
    | _ => none

def parseObjItems : Nat → List Char → Option (List (String × Value) × List Char)
  | 0, _ => none
  | fuel + 1, cs =>
    match skipWs cs with
    | '"' :: rest => do
      let (k, rest2) ← parseStringBody rest
      match skipWs rest2 with
      | ':' :: rest3 => do
        let (v, rest4) ← parseJsonVal fuel rest3
        match skipWs rest4 with
        | ',' :: rest5 => (parseObjItems fuel rest5).map (fun (l, r) => ((String.mk k, v) :: l, r))
        | c :: rest5 =>
          if c = rbraceChar then some ([(String.mk k, v)], rest5) else none
        | [] => none
      | _ => none
    | _ => none

end

/-- Python `json.loads`: parse a complete JSON document; trailing
non-whitespace is an error.  The strict-JSON subset is modeled: the
`NaN`/`Infinity` extensions and last-wins duplicate object keys are not,
as nothing in the source feeds them to the parser on a claim-relevant
path. -/
def jsonLoads (s : String) : Option Value :=
  match parseJsonVal (s.length + 1) s.data with
  | some (v, rest) => if skipWs rest = [] then some v else none
  | none => none

/-- Declared parameter types, as the `typed` library presents them to the
binder: `modelA` is a typed model (`is_model`), `setA`/`listA`/`dictA` are
subtypes of `Set`/`List`/`Dict`, the rest are scalar or opaque types. -/
inductive Ann where
  | modelA (name : String)
  | setA
  | listA
  | dictA
  | tupleA
  | boolA
  | strA
  | intA
  | otherA (name : String)
deriving Repr, DecidableEq

/-- `typed.name(ann)`. -/
def annName : Ann → String
  | .modelA n => n
  | .setA => "Set"
  | .listA => "List"
  | .dictA => "Dict"
  | .tupleA => "Tuple"
  | .boolA => "Bool"
  | .strA => "Str"
  | .intA => "Int"
  | .otherA n => n

/-- Type name used in the missing-parameter error (`Any` when unhinted). -/
def annNameOpt : Option Ann → String
  | none => "Any"
  | some a => annName a

/-- `_want_body_for`: a parameter wants the request body iff its declared
type is a typed model or a subtype of `Set`, `List` or `Dict`.  An absent
hint wants no body. -/
def wantBodyFor : Option Ann → Bool
  | none => false
  | some (.modelA _) => true
  | some .setA => true
  | some .listA => true
  | some .dictA => true
  | some _ => false

/-- `_looks_like_json`. -/
def looksLikeJson (s : String) : Bool :=
  let t := pyStrip s
  (pyStartsWith t lbrace && pyEndsWith t rbrace) || (pyStartsWith t "[" && pyEndsWith t "]")

/-- `_parse_literal`: literal coercion of string values; non-strings pass
through unchanged. -/
def pyParseLiteral (v : Value) : Value :=
  match v with
  | .strV value =>
    let s := pyStrip value
    let low := pyLower s
    if low = "true" || low = "false" then .boolV (low = "true")
    else if low = "null" || low = "none" then .nullV
    else if ((pyStartsWith s "+" || pyStartsWith s "-") && pyIsDigit (pyDropLeft s 1)) || pyIsDigit s then
      .intV (pyIntOfDigits s)
    else if pyFloatAccepts s then .floatV s
    else .strV value
  | w => w

/-- `_parse_json_maybe`: opportunistically parse JSON-looking strings,
falling back to the original value on failure. -/
def pyParseJsonMaybe (v : Value) : Value :=
  match v with
  | .strV s => if looksLikeJson s then (jsonLoads s).getD (.strV s) else .strV s
  | w => w

/-- `_maybe_cast_sequence_to_target`: cast a list to the container shape the
declared type requests.  Python `set(...)` deduplicates and forgets order;
no claim builds or compares sets, so `setV` keeps the list as given. -/
def maybeCastSeq (seq : Value) (ann : Option Ann) : Value :=
  match seq with
  | .listV l =>
    let n := match ann with | some a => annName a | none => ""
    if pyStartsWith n "Tuple(" || n = "Tuple" then .tupleV l
    else if pyStartsWith n "Set(" || n = "Set" then .setV l
    else .listV l
  | w => w

/-- Query multi-map produced by `parse_qs(query_string, keep_blank_values=True)`. -/
def QueryMap := List (String × List String)

/-- `QueryParams.get`. -/
def qpGet (q : QueryMap) (name : String) : Option String :=
  match List.lookup name q with
  | some (v :: _) => some v
  | _ => none

/-- `QueryParams.getlist`. -/
def qpGetList (q : QueryMap) (name : String) : List String :=
  (List.lookup name q).getD []

/-- `name in QueryParams`. -/
def qpContains (q : QueryMap) (name : String) : Bool :=
  (List.lookup name q).isSome

/-- The abstract `Request` the dispatch loop builds: headers are a mapping
with lower-cased names (last write wins), `bodyVal` is the value
`_read_body` would produce from the raw body bytes, and `client` is the
peer address tuple reduced to its IP (or `none` for a non-tuple client). -/
structure Request where
  method : String
  path : String
  query : QueryMap
  headers : String → Option String
  cookies : String → Option String
  pathParams : List (String × String)
  bodyVal : Value
  clientIp : Option String

/-- `_parse_query_value`. -/
def pyParseQueryValue (name : String) (ann : Option Ann) (req : Request) : Value :=
  let vals := qpGetList req.query name
  if vals.length > 1 then
    maybeCastSeq (.listV (vals.map (fun v => pyParseLiteral (.strV v)))) ann
  else
    match vals with
    | [v] =>
      if looksLikeJson v && (jsonLoads v).isSome then
        maybeCastSeq ((jsonLoads v).getD (.strV v)) ann
      else if v.data.contains ',' then
        maybeCastSeq (.listV (((splitCharAll ',' v.data).map String.mk).map
          (fun p => pyParseLiteral (.strV p)))) ann
      else pyParseLiteral (.strV v)
    | _ => .nullV

/-- A declared handler parameter: its name, the type hint (if any) and the
declared default (`none` models `inspect._empty`). -/
structure Param where
  name : String
  ann : Option Ann
  default : Option Value

/-- Binding failures: `apiErr` models `raise Error(status, detail)`,
`typeErr` models `raise TypeError(detail)`. -/
inductive BindErr where
  | apiErr (status : Int) (detail : String)
  | typeErr (detail : String)
deriving Repr, DecidableEq

/-- One parameter's resolution inside `_build_kwargs`.  Model-typed body
parameters abstract `validate` + construction as `modelVal` (the external
`typed` validation never decides a claim). -/
def bindParam (req : Request) (p : Param) : Except BindErr Value :=
  if p.name = "request" then .ok .reqObj
  else if (List.lookup p.name req.pathParams).isSome then
    .ok (pyParseLiteral (pyParseJsonMaybe (.strV ((List.lookup p.name req.pathParams).getD ""))))
  else if qpContains req.query p.name then
    .ok (pyParseQueryValue p.name p.ann req)
  else if (req.headers (pyLower p.name)).isSome then
    .ok (pyParseLiteral (pyParseJsonMaybe (.strV ((req.headers (pyLower p.name)).getD ""))))
  else if (req.cookies p.name).isSome then
    .ok (pyParseLiteral (pyParseJsonMaybe (.strV ((req.cookies p.name).getD ""))))
  else if wantBodyFor p.ann then
    match p.ann with
    | some (.modelA mname) =>
      match req.bodyVal with
      | .objV fields => .ok (.modelVal mname (.objV fields))
      | _ => .error (.typeErr ("Body for " ++ sq ++ p.name ++ sq ++
          " must be a JSON object for model " ++ sq ++ mname ++ sq))
    | _ => .ok req.bodyVal
  else
    match p.default with
    | some d => .ok d
    | none => .error (.apiErr 422 ("missing required parameter " ++ sq ++ p.name ++ sq ++
        " of type " ++ sq ++ annNameOpt p.ann ++ sq))

/-- `_build_kwargs`: bind every declared parameter in declaration order,
aborting at the first failure. -/
def buildKwargs (req : Request) : List Param → Except BindErr (List (String × Value))
  | [] => .ok []
  | p :: ps =>
    match bindParam req p with
    | .error e => .error e
    | .ok v => (buildKwargs req ps).map (fun kw => (p.name, v) :: kw)

/-- `Error(status_code, detail, headers)` from `helper.py`. -/
structure Error where
  status_code : Int
  detail : String
  headers : List (String × String) := []
deriving Repr, DecidableEq

/-- The `Response` envelope model: status discriminant, numeric code,
optional data payload, optional message. -/
structure ResponseModel where
  status : String
  code : Int
  data : Option Value := none
  message : Option String := none
deriving Repr

/-- Python-dict insert: overwrite in place when the key exists (keeping its
first-insertion position), else append. -/
def dictInsert (l : List (String × String)) (k v : String) : List (String × String) :=
  if (List.lookup k l).isSome then
    l.map (fun kv => if kv.1 = k then (k, v) else kv)
  else l ++ [(k, v)]

/-- Segment split used by `_match_path`: `x.strip("/").split("/")` with
empty segments discarded, an all-empty result counting as one empty
segment. -/
def pathSegments (s : String) : List String :=
  let parts := ((splitCharAll '/' (pyStripChar '/' s).data).map String.mk).filter (fun p => p ≠ "")
  if parts = [] then [""] else parts

/-- `t.startswith(lbrace) and t.endswith(rbrace)`: the capture-segment test
of `_match_path`. -/
def isCaptureSeg (t : String) : Bool := pyStartsWith t lbrace && pyEndsWith t rbrace

/-- `t[1:-1]`: the capture name. -/
def capName (t : String) : String := pyDropRight (pyDropLeft t 1) 1

/-- Segment-pair traversal of `_match_path` over the zipped lists. -/
def matchSegments : List (String × String) → List (String × String) → Option (List (String × String))
  | acc, [] => some acc
  | acc, (t, p) :: rest =>
    if isCaptureSeg t then matchSegments (dictInsert acc (capName t) p) rest
    else if t = p then matchSegments acc rest
    else none

/-- `_match_path(template, path)`. -/
def matchPath (template path : String) : Option (List (String × String)) :=
  let tParts := pathSegments template
  let pParts := pathSegments path
  if tParts.length ≠ pParts.length then none
  else matchSegments [] (tParts.zip pParts)

/-- Middleware configuration records from `mids.py` with their declared
defaults. -/
structure Block where
  codes : List Int := [401, 404]
  attempts : Nat := 3
  interval : Nat := 30
  block_minutes : Int := -1
  message : String := "Blocked IP."
deriving Repr

structure TokenMid where
  token : String
deriving Repr

structure Limit where
  limit : Nat := 20
  block_minutes : Nat := 5
  message : String := "Too many requests."
deriving Repr

/-- One middleware record.  `authBasic` is an `Auth` record of a kind other
than `Token`. -/
inductive Mid where
  | block (b : Block)
  | token (t : TokenMid)
  | authBasic
  | limit (l : Limit)
deriving Repr

/-- First `Block` instance in a middleware list. -/
def findBlock : List Mid → Option Block
  | [] => none
  | .block b :: _ => some b
  | _ :: rest => findBlock rest

/-- First `Auth` instance (a `Token` or another auth kind). -/
def findAuth : List Mid → Option Mid
  | [] => none
  | .token t :: _ => some (.token t)
  | .authBasic :: _ => some .authBasic
  | _ :: rest => findAuth rest

/-- First `Limit` instance. -/
def findLimit : List Mid → Option Limit
  | [] => none
  | .limit l :: _ => some l
  | _ :: rest => findLimit rest

/-- A `blocked_ips` record: `blocked_until = none` is a null (permanent)
block; `message` and `reason` are stored alongside. -/
structure BlockInfo where
  blocked_until : Option Int
  message : String
  reason : Option String := none
deriving Repr

/-- A `rate_limits` record: `blockedUntil = none` models the absence of the
`blocked_until` key, `message = none` the absence of `message`. -/
structure RateRecord where
  timestamps : List Int := []
  blockedUntil : Option Int := none
  message : Option String := none
deriving Repr

/-- The process-wide mutable middleware state (`blocked_ips`,
`_auth_failures`, `rate_limits`), embedded as maps from client IP. -/
structure MidState where
  blockedIps : String → Option BlockInfo
  authFailures : String → Option (List Int)
  rateLimits : String → Option RateRecord

/-- The empty state the process starts with. -/
def MidState.empty : MidState :=
  ⟨fun _ => none, fun _ => none, fun _ => none⟩

/-- Pointwise update of an IP-keyed map. -/
def mapSet {α : Type} (m : String → Option α) (k : String) (v : Option α) :
    String → Option α :=
  fun k' => if k' = k then v else m k'

/-- Client IP as `_enforce_ip_block`/`_enforce_rate_limit` derive it:
the first element of the client tuple, else `"unknown"`. -/
def requestIp (req : Request) : String := req.clientIp.getD "unknown"

/-- `_enforce_ip_block(request, mids, status_code)`: returns the updated
state and the raised `Error`, if any. -/
def enforceIpBlock (st : MidState) (mids : List Mid) (req : Request) (now : Int)
    (statusCode : Option Int) : MidState × Option Error :=
  if mids.isEmpty then (st, none)
  else match findBlock mids with
  | none => (st, none)
  | some blockMid =>
    let ip := requestIp req
    let afterInfo : MidState × Option Error :=
      match st.blockedIps ip with
      | none => (st, none)
      | some info =>
        match info.blocked_until with
        | none => (st, some ⟨403, info.message, []⟩)
        | some bu =>
          if bu > now then (st, some ⟨403, info.message, []⟩)
          else
            ({ st with
                blockedIps := mapSet st.blockedIps ip none,
                authFailures := mapSet st.authFailures ip none }, none)
    match afterInfo with
    | (st', some e) => (st', some e)
    | (st', none) =>
      match statusCode with
      | none => (st', none)
      | some code =>
        let codes := blockMid.codes
        if codes.isEmpty then (st', none)
        else if code ∉ codes then (st', none)
        else
          let windowStart := now - (blockMid.interval : Int)
          let failures := (st'.authFailures ip).getD []
          let failures := (failures.filter (fun t => t ≥ windowStart)) ++ [now]
          if failures.length ≥ blockMid.attempts then
            let blockedUntil : Option Int :=
              if blockMid.block_minutes < 0 then none
              else if blockMid.block_minutes = 0 then some now
              else some (now + 60 * blockMid.block_minutes)
            ({ st' with
                blockedIps := mapSet st'.blockedIps ip
                  (some ⟨blockedUntil, blockMid.message, none⟩),
                authFailures := mapSet st'.authFailures ip none },
             some ⟨403, blockMid.message, []⟩)
          else
            ({ st' with authFailures := mapSet st'.authFailures ip (some failures) }, none)

/-- Pythonic truthiness of an optional string (`None` and `""` are falsy). -/
def truthyStr : Option String → Bool
  | none => false
  | some s => s ≠ ""

/-- Python `s.split(None, 1)`: split on a whitespace run, at most once. -/
def pySplitWs1 (s : String) : List String :=
  let cs := s.data.dropWhile Char.isWhitespace
  match cs with
  | [] => []
  | _ =>
    let first := cs.takeWhile (fun c => ¬ c.isWhitespace)
    let rest := (cs.dropWhile (fun c => ¬ c.isWhitespace)).dropWhile Char.isWhitespace
    if rest = [] then [String.mk first] else [String.mk first, String.mk rest]

/-- Credential taken from the `Authorization` header: a two-part
`Bearer`/`Token` (case-insensitive) scheme yields the stripped remainder. -/
def authHeaderCred (req : Request) : Option String :=
  match req.headers "authorization" with
  | none => none
  | some h =>
    match pySplitWs1 (pyStrip h) with
    | [scheme, cred] =>
      if pyLower scheme = "token" || pyLower scheme = "bearer" then some (pyStrip cred)
      else none
    | _ => none

/-- `_enforce_token_auth(request, mids)`. -/
def enforceTokenAuth (req : Request) (mids : List Mid) : Option Error :=
  if mids.isEmpty then none
  else match findAuth mids with
  | none => none
  | some (.token t) =>
    let got1 := authHeaderCred req
    let got2 := if truthyStr got1 then got1 else req.headers "x-api-token"
    let got3 := if truthyStr got2 then got2 else qpGet req.query "token"
    if ¬ truthyStr got3 || got3 ≠ some t.token then
      some ⟨401, "Unauthorized", [("WWW-Authenticate", "Bearer realm=\"api\"")]⟩
    else none
  | some _ => some ⟨500, "Unsupported authentication type", []⟩

/-- `_enforce_rate_limit(request, mids)`: returns the updated state and the
raised `Error`, if any.  The transcription keeps the source's quirk of
writing the old record object (with its now-expired `blocked_until` and
`message`) back over the freshly cleaned one. -/
def enforceRateLimit (st : MidState) (mids : List Mid) (req : Request) (now : Int) :
    MidState × Option Error :=
  if mids.isEmpty then (st, none)
  else match findLimit mids with
  | none => (st, none)
  | some limitMid =>
    let ip := requestIp req
    let ipRecord := (st.rateLimits ip).getD {}
    let windowStart := now - 60
    let proceed : MidState → MidState × Option Error := fun st1 =>
      let timestamps := (ipRecord.timestamps.filter (fun t => t ≥ windowStart)) ++ [now]
      let rl2 := mapSet st1.rateLimits ip (some { ipRecord with timestamps := timestamps })
      let st2 := { st1 with rateLimits := rl2 }
      if timestamps.length > (limitMid.limit : Int) then
        let blockedRec : RateRecord :=
          ⟨timestamps, some (now + 60 * (limitMid.block_minutes : Int)), some limitMid.message⟩
        ({ st2 with rateLimits := mapSet st2.rateLimits ip (some blockedRec) },
         some ⟨429, limitMid.message, []⟩)
      else (st2, none)
    match ipRecord.blockedUntil with
    | none => proceed st
    | some bu =>
      if bu > now then
        (st, some ⟨429, ipRecord.message.getD limitMid.message, []⟩)
      else
        let cleanedRec : RateRecord :=
          if (st.rateLimits ip).isSome then
            ⟨ipRecord.timestamps.filter (fun t => t ≥ windowStart), none, none⟩
          else ⟨[], none, none⟩
        proceed { st with rateLimits := mapSet st.rateLimits ip (some cleanedRec) }

/-- Outcome of invoking a wrapped route handler on a request: a normalized
envelope (the `_to_response_model` result), a raised `Error`, a raised
`TypeError`, or any other exception. -/
inductive HandlerOut where
  | ok (resp : ResponseModel)
  | raiseErr (e : Error)
  | raiseTypeError (msg : String)
  | raiseOther (msg : String)

/-- A registered `_RouteEntry`: method, path template, middleware list
(`[]` embeds both `None` and an empty list, which the source treats
identically through truthiness) and the wrapped handler. -/
structure RouteE where
  method : String
  path : String
  mids : List Mid
  handler : Request → HandlerOut

/-- Help-route test used by `_match_route` and `__call__`. -/
def isHelpPath (p : String) : Bool := p = "/help" || pyStartsWith p "/help/"

/-- `API._match_route(method, path)`: first-match scan in registration
order, skipping the help routes, with a 404 on no match. -/
def matchRoute (routes : List RouteE) (method path : String) :
    Except Error (RouteE × List (String × String)) :=
  match routes with
  | [] => .error ⟨404, "No route for " ++ method ++ " " ++ path, []⟩
  | r :: rest =>
    if isHelpPath r.path then matchRoute rest method path
    else if r.method ≠ pyUpper method then matchRoute rest method path
    else match matchPath r.path path with
      | some params => .ok (r, params)
      | none => matchRoute rest method path

/-- Failure envelope built from a raised `Error` whose detail is a string:
a string detail lies in both `Json` and `Str`, so it lands in `data` and
`message` alike. -/
def failureOf (e : Error) : ResponseModel :=
  ⟨"failure", e.status_code, some (.strV e.detail), some e.detail⟩

/-- The API instance: user route table plus the two introspection handlers
`__init__` always registers (at `/help` and `/help/{endpoint}`). -/
structure APIModel where
  routes : List RouteE
  helpMain : Request → HandlerOut
  helpDetail : Request → HandlerOut

/-- Result of one `__call__`: the final middleware state, the envelope that
was sent (`none` when an exception escaped the help branch, which has no
try/except), and whether the route handler was invoked. -/
structure DispatchOut where
  state : MidState
  resp : Option ResponseModel
  ranHandler : Bool

/-- The `except Error` branch of `__call__`: when middleware is configured,
re-run the IP-block check with the error's status code; a block raised
there replaces the envelope. -/
def handleErrorBranch (st : MidState) (mids : List Mid) (req : Request) (now : Int)
    (exc : Error) : MidState × ResponseModel :=
  if ¬ mids.isEmpty then
    match enforceIpBlock st mids req now (some exc.status_code) with
    | (st', some blockExc) => (st', failureOf blockExc)
    | (st', none) => (st', failureOf exc)
  else (st, failureOf exc)

/-- The `except TypeError` branch: code 422; a `TypeError` object is neither
in `Json` nor in `Str`, so both `data` and `message` are null. -/
def handleTypeErrorBranch (st : MidState) (mids : List Mid) (req : Request) (now : Int) :
    MidState × ResponseModel :=
  if ¬ mids.isEmpty then
    match enforceIpBlock st mids req now (some 422) with
    | (st', some blockExc) => (st', failureOf blockExc)
    | (st', none) => (st', ⟨"failure", 422, none, none⟩)
  else (st, ⟨"failure", 422, none, none⟩)

/-- The generic `except Exception` branch: code 500 with the redacted
detail; the block-raised variant sets `data` to null explicitly. -/
def handleOtherBranch (st : MidState) (mids : List Mid) (req : Request) (now : Int) :
    MidState × ResponseModel :=
  let detail := "Internal Server Error"
  if ¬ mids.isEmpty then
    match enforceIpBlock st mids req now (some 500) with
    | (st', some blockExc) => (st', ⟨"failure", blockExc.status_code, none, some blockExc.detail⟩)
    | (st', none) => (st', ⟨"failure", 500, some (.strV detail), some detail⟩)
  else (st, ⟨"failure", 500, some (.strV detail), some detail⟩)

/-- The post-handler stage of `__call__`: re-run the IP-block check with the
response code; a block raised there replaces the envelope. -/
def postHandler (st : MidState) (mids : List Mid) (req : Request) (now : Int)
    (resp : ResponseModel) : MidState × ResponseModel :=
  if ¬ mids.isEmpty then
    match enforceIpBlock st mids req now (some resp.code) with
    | (st', some blockExc) => (st', failureOf blockExc)
    | (st', none) => (st', resp)
  else (st, resp)

/-- The `Request(...)` construction inside `__call__`: method upper-cased,
path and path params as resolved, the rest from the transport scope. -/
def mkDispatchRequest (req0 : Request) (method path : String)
    (params : List (String × String)) : Request :=
  { req0 with method := pyUpper method, path := path, pathParams := params }

/-- `API.__call__` after the body has been read: help paths bypass the
route matcher and all middleware; other paths run route resolution,
the pre-handler middleware chain, the handler, and the post-handler
IP-block check, with the source's exception routing. -/
def dispatch (api : APIModel) (st : MidState) (method path : String) (req0 : Request)
    (now : Int) : DispatchOut :=
  if isHelpPath path then
    let routeParams := if path = "/help" then [] else [("endpoint", pyDropLeft path 6)]
    let request := mkDispatchRequest req0 method path routeParams
    let out := (if path = "/help" then api.helpMain else api.helpDetail) request
    match out with
    | .ok r => ⟨st, some r, true⟩
    | _ => ⟨st, none, true⟩
  else
    match matchRoute api.routes (pyUpper method) path with
    | .error e => ⟨st, some (failureOf e), false⟩
    | .ok (route, routeParams) =>
      let request := mkDispatchRequest req0 method path routeParams
      let mids := route.mids
      let pre1 := if ¬ mids.isEmpty then enforceIpBlock st mids request now none else (st, none)
      match pre1 with
      | (st1, some exc) =>
        let (st', resp) := handleErrorBranch st1 mids request now exc
        ⟨st', some resp, false⟩
      | (st1, none) =>
        let pre2 := if ¬ mids.isEmpty then enforceTokenAuth request mids else none
        match pre2 with
        | some exc =>
          let (st', resp) := handleErrorBranch st1 mids request now exc
          ⟨st', some resp, false⟩
        | none =>
          let pre3 := if ¬ mids.isEmpty then enforceRateLimit st1 mids request now else (st1, none)
          match pre3 with
          | (st2, some exc) =>
            let (st', resp) := handleErrorBranch st2 mids request now exc
            ⟨st', some resp, false⟩
          | (st2, none) =>
            match route.handler request with
            | .ok resp0 =>
              let (st', resp) := postHandler st2 mids request now resp0
              ⟨st', some resp, true⟩
            | .raiseErr exc =>
              let (st', resp) := handleErrorBranch st2 mids request now exc
              ⟨st', some resp, true⟩
            | .raiseTypeError _ =>
              let (st', resp) := handleTypeErrorBranch st2 mids request now
              ⟨st', some resp, true⟩
            | .raiseOther _ =>
              let (st', resp) := handleOtherBranch st2 mids request now
              ⟨st', some resp, true⟩

/-- Python `s.split(sep, maxsplit)` for a single-character separator. -/
def splitCharMax (sep : Char) : Nat → List Char → List (List Char)
  | 0, cs => [cs]
  | m + 1, cs =>
    let pre := cs.takeWhile (· ≠ sep)
    let rest := cs.dropWhile (· ≠ sep)
    match rest with
    | [] => [cs]
    | _ :: tail => pre :: splitCharMax sep m tail

/-- `request_line.split(" ", 2)`. -/
def pySplitSpace2 (s : String) : List String :=
  (splitCharMax ' ' 2 s.data).map String.mk

/-- One header line as `_handle_client` parses it: empty and colonless
lines are ignored, the name is stripped and lower-cased, the value
stripped. -/
def parseHeaderLine (line : String) : Option (String × String) :=
  if line = "" then none
  else if ¬ line.data.contains ':' then none
  else
    let name := String.mk (line.data.takeWhile (· ≠ ':'))
    let value := String.mk ((line.data.dropWhile (· ≠ ':')).drop 1)
    some (pyLower (pyStrip name), pyStrip value)

/-- Python-dict lookup over a header list built with last-write-wins. -/
def lookupLast (l : List (String × String)) (k : String) : Option String :=
  ((l.filter (fun kv => kv.1 = k)).getLast?).map (fun kv => kv.2)

/-- The bytes a connection delivered: either the header terminator
`\r\n\r\n` never arrived (`readuntil` raised), or the decoded header
block text. -/
inductive ConnInput where
  | noTerminator
  | headerData (text : String)

/-- What `BuiltinHTTPServer._handle_client` does with a connection, up to
the point the ASGI application would be invoked: close with no response,
write a fixed simple response, or proceed to dispatch with the parsed
request line, headers and validated Content-Length. -/
inductive ConnOutcome where
  | closedNoResponse
  | simpleResponse (status : Int) (body : String)
  | dispatched (method target httpVersion : String)
      (headers : List (String × String)) (contentLength : Option Int)
deriving Repr, DecidableEq

/-- `_handle_client` transcribed through request-line, header and
Content-Length validation (body read and ASGI invocation abstracted
behind `dispatched`). -/
def handleClient : ConnInput → ConnOutcome
  | .noTerminator => .closedNoResponse
  | .headerData text =>
    let lines := (splitCRLF text.data).map String.mk
    let firstLine := lines.headD ""
    if firstLine = "" then .simpleResponse 400 "Bad Request: empty request line"
    else
      let headerLines :=
        if lines.drop (lines.length - 2) = ["", ""] then
          ((lines.drop 1).dropLast).dropLast
        else lines.drop 1
      match pySplitSpace2 firstLine with
      | [method, target, ver] =>
        let hdrs := headerLines.filterMap parseHeaderLine
        match lookupLast hdrs "content-length" with
        | none => .dispatched method target ver hdrs none
        | some v =>
          match pyIntParse v with
          | none => .simpleResponse 400 "Bad Request: invalid Content-Length"
          | some len => .dispatched method target ver hdrs (some len)
      | _ => .simpleResponse 400 "Bad Request: invalid request line"

/-- Whether an outcome is a 400-class simple response. -/
def is400Class : ConnOutcome → Bool
  | .simpleResponse s _ => 400 ≤ s && s < 500
  | _ => false

/-- Modelled from the spec: `utils.general.message` (external package,
absent from the source tree).  The spec's envelope has an "optional human
message"; with no keyword arguments the helper passes the optional message
through unchanged, so `message=None` yields a null message. -/
def generalMessage (message : Option String) : Option String := message

/-- `response.success(code, message, data)`: Python `code or 200` maps both
`None` and `0` to 200. -/
def responseSuccess (code : Option Int) (message : Option String) (data : Option Value) :
    ResponseModel :=
  let c : Int := match code with | none => 200 | some c => if c = 0 then 200 else c
  ⟨"success", c, data, generalMessage message⟩

/-- The payload dict `API._send_response` serializes: status, code, data,
message in that order (the typed-model `__json__` projection and the
explicit fallback dict agree on this shape). -/
def wirePayload (r : ResponseModel) : Value :=
  .objV [("status", .strV r.status), ("code", .intV r.code),
         ("data", r.data.getD .nullV),
         ("message", match r.message with | none => .nullV | some m => .strV m)]

/-- The wire JSON body `json.dumps(payload)`. -/
def wireBody (r : ResponseModel) : Option String := jsonDumps (wirePayload r)

section RouteClaims

/-- Claim-side single-segment match: literal equality or a capture. -/
def specSegMatch (t p : String) : Bool := isCaptureSeg t || t = p

/-- Claim-side route-entry match: method equal case-insensitively and path
template matching segmentwise with equal segment counts. -/
def specRouteMatches (r : RouteE) (method path : String) : Bool :=
  pyUpper r.method = pyUpper method &&
  (pathSegments r.path).length = (pathSegments path).length &&
  ((pathSegments r.path).zip (pathSegments path)).all (fun ab => specSegMatch ab.1 ab.2)

/-- Claim-side capture bindings: each capture segment bound to the
corresponding concrete segment verbatim (dictionary semantics). -/
def specBindings (t p : String) : List (String × String) :=
  ((pathSegments t).zip (pathSegments p)).foldl
    (fun acc ab => if isCaptureSeg ab.1 then dictInsert acc (capName ab.1) ab.2 else acc) []

/-- Claim-side route resolution: first entry in registration order that
matches; otherwise the 404 no-route error. -/
def specResolve (routes : List RouteE) (method path : String) :
    Except Error (RouteE × List (String × String)) :=
  match routes.find? (fun r => specRouteMatches r method path) with
  | some r => .ok (r, specBindings r.path path)
  | none => .error ⟨404, "No route for " ++ method ++ " " ++ path, []⟩

theorem matchSegments_eq (pairs : List (String × String)) :
    ∀ acc, matchSegments acc pairs =
      if pairs.all (fun ab => specSegMatch ab.1 ab.2) then
        some (pairs.foldl
          (fun acc' ab => if isCaptureSeg ab.1 then dictInsert acc' (capName ab.1) ab.2 else acc') acc)
      else none := by
  induction pairs with
  | nil => intro acc; simp [matchSegments]
  | cons ab rest ih =>
    intro acc
    obtain ⟨t, p⟩ := ab
    simp only [matchSegments, List.all_cons, List.foldl_cons]
    by_cases hc : isCaptureSeg t
    · rw [if_pos hc, ih, specSegMatch, hc]
      simp only [Bool.true_or, Bool.true_and, eq_self_iff_true, if_true]
    · rw [if_neg hc]
      by_cases he : t = p
      · subst he
        rw [if_pos rfl, ih, specSegMatch]
        simp only [Bool.not_eq_true] at hc
        rw [hc]
        simp only [eq_self_iff_true, decide_True, Bool.or_true, Bool.true_and,
          Bool.false_or, Bool.false_eq_true, if_false]
      · rw [if_neg he, specSegMatch]
        simp only [Bool.not_eq_true] at hc
        rw [hc, decide_eq_false he]
        simp only [Bool.false_or, Bool.false_and, Bool.false_eq_true, if_false]

theorem matchPath_eq (t p : String) :
    matchPath t p =
      if (pathSegments t).length = (pathSegments p).length ∧
         ((pathSegments t).zip (pathSegments p)).all (fun ab => specSegMatch ab.1 ab.2) then
        some (specBindings t p)
      else none := by
  unfold matchPath specBindings
  by_cases hl : (pathSegments t).length = (pathSegments p).length
  · rw [if_neg (not_not_intro hl), matchSegments_eq]
    by_cases ha : ((pathSegments t).zip (pathSegments p)).all (fun ab => specSegMatch ab.1 ab.2)
    · rw [if_pos ha, if_pos ⟨hl, ha⟩]
    · rw [if_neg ha, if_neg (fun h => ha h.2)]
  · rw [if_pos hl, if_neg (fun h => hl h.1)]

theorem specResolve_cons_pos {r : RouteE} {rest : List RouteE} {method path : String}
    (h : specRouteMatches r method path = true) :
    specResolve (r :: rest) method path = .ok (r, specBindings r.path path) := by
  unfold specResolve
  rw [List.find?_cons_of_pos rest (show (fun q => specRouteMatches q method path) r = true from h)]

theorem specResolve_cons_neg {r : RouteE} {rest : List RouteE} {method path : String}
    (h : specRouteMatches r method path = false) :
    specResolve (r :: rest) method path = specResolve rest method path := by
  unfold specResolve
  rw [List.find?_cons_of_neg rest
    (show ¬ (fun q => specRouteMatches q method path) r = true from by simp [h])]

theorem specRouteMatches_iff (r : RouteE) (method path : String) :
    specRouteMatches r method path = true ↔
      pyUpper r.method = pyUpper method ∧
      (pathSegments r.path).length = (pathSegments path).length ∧
      ((pathSegments r.path).zip (pathSegments path)).all (fun ab => specSegMatch ab.1 ab.2) = true := by
  simp only [specRouteMatches, Bool.and_eq_true, decide_eq_true_eq, and_assoc]

theorem matchRoute_cons (r : RouteE) (rest : List RouteE) (method path : String) :
    matchRoute (r :: rest) method path =
      if isHelpPath r.path then matchRoute rest method path
      else if r.method ≠ pyUpper method then matchRoute rest method path
      else match matchPath r.path path with
        | some params => .ok (r, params)
        | none => matchRoute rest method path := rfl

theorem matchRoute_eq (routes : List RouteE) (method path : String)
    (hhelp : ∀ r ∈ routes, isHelpPath r.path = false)
    (hupper : ∀ r ∈ routes, r.method = pyUpper r.method) :
    matchRoute routes method path = specResolve routes method path := by
  induction routes with
  | nil => rfl
  | cons r rest ih =>
    have hh : isHelpPath r.path = false := hhelp r (List.mem_cons_self r rest)
    have hu : r.method = pyUpper r.method := hupper r (List.mem_cons_self r rest)
    have ihr := ih (fun x hx => hhelp x (List.mem_cons_of_mem r hx))
                   (fun x hx => hupper x (List.mem_cons_of_mem r hx))
    rw [matchRoute_cons, hh]
    simp only [Bool.false_eq_true, if_false]
    by_cases hm : specRouteMatches r method path = true
    · obtain ⟨h1, h2, h3⟩ := (specRouteMatches_iff r method path).mp hm
      have hmeq : r.method = pyUpper method := hu.trans h1
      rw [if_neg (not_not_intro hmeq), matchPath_eq, if_pos ⟨h2, h3⟩,
        specResolve_cons_pos hm]
    · have hm' : specRouteMatches r method path = false := by
        cases hb : specRouteMatches r method path
        · rfl
        · exact absurd hb hm
      rw [specResolve_cons_neg hm']
      by_cases hme : r.method = pyUpper method
      · rw [if_neg (not_not_intro hme), matchPath_eq, if_neg ?_]
        · exact ihr
        · intro hcon
          apply hm
          exact (specRouteMatches_iff r method path).mpr ⟨hu.symm.trans hme, hcon.1, hcon.2⟩
      · rw [if_pos hme]
        exact ihr

/-- Handlers for the overlapping-template example. -/
def hTmpl : Request → HandlerOut := fun _ => .ok ⟨"success", 200, none, none⟩

def hLit : Request → HandlerOut := fun _ => .ok ⟨"success", 200, none, none⟩

/-- The template route `/a/(lbrace)x(rbrace)` registered before the literal
route `/a/b`. -/
def exampleRoutes : List RouteE :=
  [⟨"GET", "/a/" ++ lbrace ++ "x" ++ rbrace, [], hTmpl⟩, ⟨"GET", "/a/b", [], hLit⟩]

/-- C2: route resolution scans entries in registration order and returns the
first entry whose method equals the request method case-insensitively and
whose path template matches — equal segment counts after splitting on
slashes and discarding empty segments (all-empty counting as one empty
segment), each template segment literal-equal or a capture bound verbatim —
formalized as equality with the claim-side first-match resolver
`specResolve`, for tables whose entries are as registration produces them
(no help-path entries, upper-cased methods); in particular registering
`/a/(lbrace)x(rbrace)` before `/a/b` makes `GET /a/b` resolve the template
with `x` bound to `"b"`, and an unmatched request yields the 404 error
`No route for METHOD PATH`. -/
theorem route_resolution_first_match :
    (∀ (routes : List RouteE) (method path : String),
      (∀ r ∈ routes, isHelpPath r.path = false) →
      (∀ r ∈ routes, r.method = pyUpper r.method) →
      matchRoute routes method path = specResolve routes method path) ∧
    matchRoute exampleRoutes "GET" "/a/b" =
      .ok (⟨"GET", "/a/" ++ lbrace ++ "x" ++ rbrace, [], hTmpl⟩, [("x", "b")]) ∧
    matchRoute exampleRoutes "GET" "/zzz" =
      .error ⟨404, "No route for GET /zzz", []⟩ :=
  ⟨fun routes method path h1 h2 => matchRoute_eq routes method path h1 h2, rfl, rfl⟩

/-- Witness for C2 at the concrete example table. -/
theorem route_resolution_first_match_witness :
    matchRoute exampleRoutes "GET" "/a/b" = specResolve exampleRoutes "GET" "/a/b" :=
  route_resolution_first_match.1 exampleRoutes "GET" "/a/b"
    (by intro r hr; simp only [exampleRoutes, List.mem_cons, List.not_mem_nil, or_false] at hr
        rcases hr with rfl | rfl <;> rfl)
    (by intro r hr; simp only [exampleRoutes, List.mem_cons, List.not_mem_nil, or_false] at hr
        rcases hr with rfl | rfl <;> rfl)

end RouteClaims

section BinderClaims

/-- The seven binding sources of the claim, in its order. -/
inductive BindSource where
  | reqS | pathS | queryS | headerS | cookieS | bodyS | defaultS
deriving Repr, DecidableEq

/-- Claim-side test: does this source claim the parameter's name? -/
def sourceClaims (req : Request) (p : Param) : BindSource → Bool
  | .reqS => p.name = "request"
  | .pathS => (List.lookup p.name req.pathParams).isSome
  | .queryS => qpContains req.query p.name
  | .headerS => (req.headers (pyLower p.name)).isSome
  | .cookieS => (req.cookies p.name).isSome
  | .bodyS => wantBodyFor p.ann
  | .defaultS => p.default.isSome

/-- Claim-side value delivered by a source that claims the name. -/
def sourceValue (req : Request) (p : Param) : BindSource → Except BindErr Value
  | .reqS => .ok .reqObj
  | .pathS => .ok (pyParseLiteral (pyParseJsonMaybe
      (.strV ((List.lookup p.name req.pathParams).getD ""))))
  | .queryS => .ok (pyParseQueryValue p.name p.ann req)
  | .headerS => .ok (pyParseLiteral (pyParseJsonMaybe
      (.strV ((req.headers (pyLower p.name)).getD ""))))
  | .cookieS => .ok (pyParseLiteral (pyParseJsonMaybe
      (.strV ((req.cookies p.name).getD ""))))
  | .bodyS =>
    match p.ann with
    | some (.modelA mname) =>
      match req.bodyVal with
      | .objV fields => .ok (.modelVal mname (.objV fields))
      | _ => .error (.typeErr ("Body for " ++ sq ++ p.name ++ sq ++
          " must be a JSON object for model " ++ sq ++ mname ++ sq))
    | _ => .ok req.bodyVal
  | .defaultS => .ok (p.default.getD .nullV)

/-- Claim-side binder: the first source in the claim's order that claims the
name provides the value; with no claiming source the bind fails with the
missing-required-parameter error. -/
def bindSpec (req : Request) (p : Param) : Except BindErr Value :=
  match [BindSource.reqS, .pathS, .queryS, .headerS, .cookieS, .bodyS, .defaultS].find?
      (sourceClaims req p) with
  | some s => sourceValue req p s
  | none => .error (.apiErr 422 ("missing required parameter " ++ sq ++ p.name ++ sq ++
      " of type " ++ sq ++ annNameOpt p.ann ++ sq))

theorem bindParam_eq_bindSpec (req : Request) (p : Param) :
    bindParam req p = bindSpec req p := by
  unfold bindParam bindSpec
  simp only [List.find?, sourceClaims]
  by_cases h1 : p.name = "request"
  · simp [h1, sourceValue]
  · simp only [h1, decide_False, if_neg h1]
    by_cases h2 : (List.lookup p.name req.pathParams).isSome
    · simp [h2, sourceValue]
    · simp only [h2, Bool.false_eq_true, if_false]
      by_cases h3 : qpContains req.query p.name
      · simp [h3, sourceValue]
      · simp only [h3, Bool.false_eq_true, if_false]
        by_cases h4 : (req.headers (pyLower p.name)).isSome
        · simp [h4, sourceValue]
        · simp only [h4, Bool.false_eq_true, if_false]
          by_cases h5 : (req.cookies p.name).isSome
          · simp [h5, sourceValue]
          · simp only [h5, Bool.false_eq_true, if_false]
            by_cases h6 : wantBodyFor p.ann
            · simp [h6, sourceValue]
            · simp only [h6, Bool.false_eq_true, if_false]
              cases hd : p.default with
              | some d => simp [hd, sourceValue]
              | none => simp [hd, sourceValue]

/-- C3: each declared parameter is bound from the first source that claims
its name, in the order request object, path parameters, query parameters,
headers (case-insensitive), cookies, body (only for structured/body-typed
parameters), declared default (`bindParam = bindSpec`); a query parameter
sharing a path capture's name is ignored in favor of the path value; and
with no claiming source and no default the bind fails with a 422 error
naming the parameter and its expected type. -/
theorem binder_source_precedence :
    (∀ (req : Request) (p : Param), bindParam req p = bindSpec req p) ∧
    (∀ (req : Request) (p : Param) (v : String), p.name ≠ "request" →
      List.lookup p.name req.pathParams = some v →
      bindParam req p = .ok (pyParseLiteral (pyParseJsonMaybe (.strV v)))) ∧
    (∀ (req : Request) (p : Param), p.name ≠ "request" →
      List.lookup p.name req.pathParams = none →
      qpContains req.query p.name = false →
      req.headers (pyLower p.name) = none →
      req.cookies p.name = none →
      wantBodyFor p.ann = false →
      p.default = none →
      bindParam req p = .error (.apiErr 422
        ("missing required parameter " ++ sq ++ p.name ++ sq ++
         " of type " ++ sq ++ annNameOpt p.ann ++ sq))) := by
  refine ⟨bindParam_eq_bindSpec, ?_, ?_⟩
  · intro req p v h1 h2
    unfold bindParam
    simp [h1, h2]
  · intro req p h1 h2 h3 h4 h5 h6 h7
    unfold bindParam
    simp [h1, h2, h3, h4, h5, h6, h7]

/-- The request `GET /users/42?active=true` resolved against the route
`GET /users/(lbrace)id(rbrace)`. -/
def usersReq : Request :=
  { method := "GET", path := "/users/42",
    query := [("active", ["true"])],
    headers := fun _ => none,
    cookies := fun _ => none,
    pathParams := [("id", "42")],
    bodyVal := .nullV,
    clientIp := some "1.2.3.4" }

/-- The handler's declared parameters: `id` (string-hinted) and `active`
(boolean-hinted). -/
def usersParams : List Param :=
  [⟨"id", some .strA, none⟩, ⟨"active", some .boolA, none⟩]

/-- C4 counterexample: the claim says the handler receives `id="42"`
(a string), but the binder's literal coercion pass turns the path value
`"42"` into the integer 42. -/
theorem users_binding_counterexample :
    buildKwargs usersReq usersParams = .ok [("id", .intV 42), ("active", .boolV true)] ∧
    Value.intV 42 ≠ Value.strV "42" :=
  ⟨rfl, fun h => nomatch h⟩

/-- C4 (amended): `GET /users/42?active=true` against `GET
/users/(lbrace)id(rbrace)` invokes the handler with `id=42` (the path value
after literal integer coercion) and `active=True`. -/
theorem users_binding_amended :
    buildKwargs usersReq usersParams = .ok [("id", .intV 42), ("active", .boolV true)] := rfl

/-- Witness for C3 at concrete inputs: the refinement instantiated at the
`id` parameter of the users request, and the path-over-query precedence
discharged there. -/
theorem binder_source_precedence_witness :
    bindParam usersReq ⟨"id", some .strA, none⟩ = bindSpec usersReq ⟨"id", some .strA, none⟩ ∧
    bindParam usersReq ⟨"id", some .strA, none⟩ =
      .ok (pyParseLiteral (pyParseJsonMaybe (.strV "42"))) :=
  ⟨binder_source_precedence.1 usersReq ⟨"id", some .strA, none⟩,
   binder_source_precedence.2.1 usersReq ⟨"id", some .strA, none⟩ "42"
     (by decide) rfl⟩

end BinderClaims

section MidClaims

/-- A route-level `Limit(limit=3)` middleware list. -/
def rlMids : List Mid := [.limit { limit := 3 }]

/-- A plain request from client IP 9.9.9.9. -/
def rlReq : Request :=
  { method := "GET", path := "/r", query := [], headers := fun _ => none,
    cookies := fun _ => none, pathParams := [], bodyVal := .nullV,
    clientIp := some "9.9.9.9" }

/-- C5: under `Limit(limit=3)` with the fixed one-minute window, from empty
state the first three checks pass, the fourth within the window is rejected
with 429 and installs a block of `block_minutes` minutes; an IP with a
future `blocked_until` is rejected with 429 on every check; and on every
check that is not short-circuited by an active block the stored timestamp
list is pruned to the window and the current timestamp appended, the check
rejecting exactly when the resulting count exceeds the limit. -/
theorem rate_limit_sliding_window :
    (let r1 := enforceRateLimit MidState.empty rlMids rlReq 0
     let r2 := enforceRateLimit r1.1 rlMids rlReq 10
     let r3 := enforceRateLimit r2.1 rlMids rlReq 20
     let r4 := enforceRateLimit r3.1 rlMids rlReq 30
     r1.2 = none ∧ r2.2 = none ∧ r3.2 = none ∧
     r4.2 = some ⟨429, "Too many requests.", []⟩ ∧
     r4.1.rateLimits "9.9.9.9" = some ⟨[0, 10, 20, 30], some 330, some "Too many requests."⟩) ∧
    (∀ (st : MidState) (mids : List Mid) (req : Request) (now : Int) (lm : Limit)
       (rec : RateRecord) (bu : Int),
      mids.isEmpty = false → findLimit mids = some lm →
      st.rateLimits (requestIp req) = some rec → rec.blockedUntil = some bu → bu > now →
      enforceRateLimit st mids req now = (st, some ⟨429, rec.message.getD lm.message, []⟩)) ∧
    (∀ (st : MidState) (mids : List Mid) (req : Request) (now : Int) (lm : Limit)
       (rec : RateRecord),
      mids.isEmpty = false → findLimit mids = some lm →
      (st.rateLimits (requestIp req)).getD {} = rec → rec.blockedUntil = none →
      let ts := rec.timestamps.filter (fun t => t ≥ now - 60) ++ [now]
      (enforceRateLimit st mids req now).1.rateLimits (requestIp req) =
        some (if ts.length > (lm.limit : Int) then
                ⟨ts, some (now + 60 * (lm.block_minutes : Int)), some lm.message⟩
              else { rec with timestamps := ts }) ∧
      (enforceRateLimit st mids req now).2 =
        (if ts.length > (lm.limit : Int) then some ⟨429, lm.message, []⟩ else none)) := by
  refine ⟨⟨rfl, rfl, rfl, rfl, rfl⟩, ?_, ?_⟩
  · intro st mids req now lm rec bu hm hf hrec hbu hnow
    unfold enforceRateLimit
    rw [hm, hf]
    simp only [Bool.false_eq_true, if_false, hrec, Option.getD_some, hbu, if_pos hnow]
  · intro st mids req now lm rec hm hf hrec hbu
    unfold enforceRateLimit
    rw [hm, hf]
    simp only [Bool.false_eq_true, if_false, hrec, hbu]
    by_cases hlen : ((rec.timestamps.filter (fun t => t ≥ now - 60)) ++ [now]).length > (lm.limit : Int)
    · simp only [if_pos hlen, mapSet, if_pos rfl]
      constructor <;> trivial
    · simp only [if_neg hlen, mapSet, if_pos rfl]
      constructor <;> trivial

/-- A state in which 9.9.9.9 holds a rate-limit block until t=330. -/
def rlBlockedState : MidState :=
  { blockedIps := fun _ => none, authFailures := fun _ => none,
    rateLimits := mapSet (fun _ => none) "9.9.9.9"
      (some ⟨[0, 10, 20, 30], some 330, some "Too many requests."⟩) }

/-- Witness for C5: the blocked-IP rejection and the prune-and-append step
instantiated at concrete states. -/
theorem rate_limit_sliding_window_witness :
    enforceRateLimit rlBlockedState rlMids rlReq 100 =
      (rlBlockedState, some ⟨429, "Too many requests.", []⟩) ∧
    (enforceRateLimit MidState.empty rlMids rlReq 5).2 = none := by
  constructor
  · have h := rate_limit_sliding_window.2.1 rlBlockedState rlMids rlReq 100 { limit := 3 }
      ⟨[0, 10, 20, 30], some 330, some "Too many requests."⟩ 330 rfl rfl rfl rfl (by decide)
    simpa using h
  · have h := (rate_limit_sliding_window.2.2 MidState.empty rlMids rlReq 5 { limit := 3 }
      {} rfl rfl rfl rfl).2
    rw [h]
    rfl

/-- C6: when the IP-block check runs with a response status among the
configured trigger codes and the IP holds no block record, a timestamp is
appended to the IP's failure list after pruning entries older than the
configured interval; when the pruned count reaches the attempts threshold, a
block record is installed — `blocked_until` null (permanent) for negative
`block_minutes`, the current instant for zero, now plus `block_minutes`
minutes for positive — the failure list is cleared and the request is
rejected with 403 carrying the configured message; below the threshold the
appended list is stored and the check passes. -/
theorem ip_block_escalation_mechanics :
    ∀ (st : MidState) (mids : List Mid) (req : Request) (now code : Int) (b : Block),
    mids.isEmpty = false → findBlock mids = some b →
    st.blockedIps (requestIp req) = none →
    b.codes ≠ [] → code ∈ b.codes →
    ((((st.authFailures (requestIp req)).getD []).filter
        (fun t => t ≥ now - (b.interval : Int)) ++ [now]).length ≥ b.attempts →
      (enforceIpBlock st mids req now (some code)).2 = some ⟨403, b.message, []⟩ ∧
      (enforceIpBlock st mids req now (some code)).1.blockedIps (requestIp req) =
        some ⟨(if b.block_minutes < 0 then none else if b.block_minutes = 0 then some now
               else some (now + 60 * b.block_minutes)), b.message, none⟩ ∧
      (enforceIpBlock st mids req now (some code)).1.authFailures (requestIp req) = none) ∧
    ((((st.authFailures (requestIp req)).getD []).filter
        (fun t => t ≥ now - (b.interval : Int)) ++ [now]).length < b.attempts →
      (enforceIpBlock st mids req now (some code)).2 = none ∧
      (enforceIpBlock st mids req now (some code)).1.authFailures (requestIp req) =
        some (((st.authFailures (requestIp req)).getD []).filter
          (fun t => t ≥ now - (b.interval : Int)) ++ [now])) := by
  intro st mids req now code b hm hf hbl hcodes hmem
  have hce : b.codes.isEmpty = false := by
    cases hb : b.codes with
    | nil => exact absurd hb hcodes
    | cons x xs => rfl
  have hni : ¬ code ∉ b.codes := not_not_intro hmem
  unfold enforceIpBlock
  rw [hm, hf]
  simp only [Bool.false_eq_true, if_false, hbl, hce, if_neg hni]
  constructor
  · intro hth
    rw [if_pos hth]
    refine ⟨rfl, ?_, ?_⟩ <;> simp [mapSet]
  · intro hth
    rw [if_neg (not_le.mpr hth)]
    refine ⟨rfl, ?_⟩
    simp [mapSet]

/-- A state in which 9.9.9.9 already has failures at t=0 and t=10. -/
def c6State : MidState :=
  { blockedIps := fun _ => none,
    authFailures := mapSet (fun _ => none) "9.9.9.9" (some [0, 10]),
    rateLimits := fun _ => none }

/-- The escalation configuration of the spec: three 401s in 30 seconds,
permanent block. -/
def b401 : Block :=
  { codes := [401], attempts := 3, interval := 30, block_minutes := -1, message := "Blocked IP." }

/-- Witness for C6: the third 401 from 9.9.9.9 inside the window installs a
permanent block and rejects with 403. -/
theorem ip_block_escalation_mechanics_witness :
    (enforceIpBlock c6State [.block b401] rlReq 20 (some 401)).2 =
      some ⟨403, "Blocked IP.", []⟩ ∧
    (enforceIpBlock c6State [.block b401] rlReq 20 (some 401)).1.blockedIps "9.9.9.9" =
      some ⟨none, "Blocked IP.", none⟩ ∧
    (enforceIpBlock c6State [.block b401] rlReq 20 (some 401)).1.authFailures "9.9.9.9" = none :=
  (ip_block_escalation_mechanics c6State [.block b401] rlReq 20 401 b401
    rfl rfl rfl (by decide) (by decide)).1 (by decide)

/-- Claim-side credential extraction: the first non-empty credential among
the Authorization-header scheme credential, the `X-Api-Token` header and
the `token` query parameter. -/
def specExtract (req : Request) : Option String :=
  ([authHeaderCred req, req.headers "x-api-token", qpGet req.query "token"].find?
    truthyStr).getD none

/-- C7: with a `Token` middleware, the credential is taken from the
Authorization header (`Bearer`/`Token` scheme, case-insensitive), then the
`X-Api-Token` header, then the `token` query parameter (`specExtract`);
the check passes exactly when that credential equals the configured secret,
and otherwise raises 401 `Unauthorized` with a `WWW-Authenticate` header;
an `Auth` middleware of an unsupported kind raises 500. -/
theorem token_auth_credential :
    (∀ (req : Request) (mids : List Mid) (t : TokenMid),
      mids.isEmpty = false → findAuth mids = some (.token t) →
      (enforceTokenAuth req mids = none ↔ specExtract req = some t.token) ∧
      (enforceTokenAuth req mids = none ∨
       enforceTokenAuth req mids =
         some ⟨401, "Unauthorized", [("WWW-Authenticate", "Bearer realm=\"api\"")]⟩)) ∧
    (∀ (req : Request) (mids : List Mid),
      mids.isEmpty = false → findAuth mids = some .authBasic →
      enforceTokenAuth req mids = some ⟨500, "Unsupported authentication type", []⟩) := by
  constructor
  · intro req mids t hm hf
    unfold enforceTokenAuth specExtract
    rw [hm, hf]
    simp only [Bool.false_eq_true, if_false, List.find?]
    by_cases h1 : truthyStr (authHeaderCred req)
    · by_cases heq : authHeaderCred req = some t.token
      · have h1x : truthyStr (some t.token) = true := heq ▸ h1
        simp [heq, h1x]
      · simp [h1, heq]
    · by_cases h2 : truthyStr (req.headers "x-api-token")
      · by_cases heq : req.headers "x-api-token" = some t.token
        · have h2x : truthyStr (some t.token) = true := heq ▸ h2
          simp [h1, heq, h2x]
        · simp [h1, h2, heq]
      · by_cases h3 : truthyStr (qpGet req.query "token")
        · by_cases heq : qpGet req.query "token" = some t.token
          · have h3x : truthyStr (some t.token) = true := heq ▸ h3
            simp [h1, h2, heq, h3x]
          · simp [h1, h2, h3, heq]
        · simp [h1, h2, h3]
  · intro req mids hm hf
    unfold enforceTokenAuth
    rw [hm, hf]
    simp

/-- A concrete request from 1.1.1.1 carrying `Authorization: Bearer sekrit`. -/
def tokenReq : Request :=
  { method := "GET", path := "/r", query := [],
    headers := fun n => if n = "authorization" then some "Bearer sekrit" else none,
    cookies := fun _ => none, pathParams := [], bodyVal := .nullV,
    clientIp := some "1.1.1.1" }

/-- Witness for C7: a matching bearer credential passes, and a non-token
auth record is a 500 configuration error. -/
theorem token_auth_credential_witness :
    enforceTokenAuth tokenReq [.token ⟨"sekrit"⟩] = none ∧
    enforceTokenAuth tokenReq [.authBasic] =
      some ⟨500, "Unsupported authentication type", []⟩ :=
  ⟨((token_auth_credential.1 tokenReq [.token ⟨"sekrit"⟩] ⟨"sekrit"⟩ rfl rfl).1).mpr rfl,
   token_auth_credential.2 tokenReq [.authBasic] rfl rfl⟩

end MidClaims

section DispatchClaims

/-- A nonempty middleware list has a positive `findBlock` only. -/
theorem findBlock_nonempty {mids : List Mid} {b : Block} (h : findBlock mids = some b) :
    mids.isEmpty = false := by
  cases mids with
  | nil => cases h
  | cons x xs => rfl

/-- An IP that holds a null-or-future block is rejected by every IP-block
check, whatever status code is supplied, with the stored message and no
state change. -/
theorem enforceIpBlock_blocked (st : MidState) (mids : List Mid) (req : Request) (now : Int)
    (statusCode : Option Int) (b : Block) (info : BlockInfo)
    (hf : findBlock mids = some b)
    (hbl : st.blockedIps (requestIp req) = some info)
    (hbu : info.blocked_until = none ∨ ∃ bu, info.blocked_until = some bu ∧ bu > now) :
    enforceIpBlock st mids req now statusCode = (st, some ⟨403, info.message, []⟩) := by
  unfold enforceIpBlock
  rw [findBlock_nonempty hf, hf]
  simp only [Bool.false_eq_true, if_false, hbl]
  rcases hbu with h | ⟨bu, hbu, hgt⟩
  · simp [h]
  · simp [hbu, hgt]

/-- Help-route handlers used by the example APIs. -/
def helpMainH : Request → HandlerOut := fun _ => .ok ⟨"success", 200, none, some "help"⟩

def helpDetailH : Request → HandlerOut := fun _ => .ok ⟨"success", 200, none, some "help detail"⟩

/-- An API with a single middleware-free route. -/
def plainApi : APIModel :=
  { routes := [⟨"GET", "/open", [], fun _ => .ok ⟨"success", 200, none, none⟩⟩],
    helpMain := helpMainH, helpDetail := helpDetailH }

/-- A state in which 9.9.9.9 is permanently blocked. -/
def blockedIpState : MidState :=
  { blockedIps := mapSet (fun _ => none) "9.9.9.9" (some ⟨none, "Blocked IP.", none⟩),
    authFailures := fun _ => none, rateLimits := fun _ => none }

/-- C1 counterexample: 9.9.9.9 is in `blocked_ips` with a null (permanent)
`blocked_until`, yet on a route with no middleware its request runs the
handler and succeeds — the rejection is not route-independent. -/
theorem ip_block_invariant_counterexample :
    (dispatch plainApi blockedIpState "GET" "/open" rlReq 0).ranHandler = true ∧
    (dispatch plainApi blockedIpState "GET" "/open" rlReq 0).resp =
      some ⟨"success", 200, none, none⟩ :=
  ⟨rfl, rfl⟩

/-- An API whose routes `/r` (handler returns a 401 envelope) and `/s`
(handler succeeds) both carry the `Block` escalation middleware. -/
def escApi : APIModel :=
  { routes :=
      [⟨"GET", "/r", [.block b401], fun _ => .ok ⟨"failure", 401, none, some "Unauthorized"⟩⟩,
       ⟨"GET", "/s", [.block b401], fun _ => .ok ⟨"success", 200, none, none⟩⟩],
    helpMain := helpMainH, helpDetail := helpDetailH }

/-- C1 (amended): for a matched non-help route whose effective middleware
contains a `Block` record, a client IP holding a `blocked_ips` entry with
null or future `blocked_until` is rejected with a 403 failure envelope
before the handler runs, with the state unchanged; and under
`Block(attempts=3, interval=30, codes=[401])`, three 401 statuses from one
IP within 30 seconds install a (permanent) block whose installing response
is already 403, after which a request on a different Block-guarded route is
rejected with 403 before its handler runs. -/
theorem ip_block_rejects_before_handler :
    (∀ (api : APIModel) (st : MidState) (method path : String) (req0 : Request) (now : Int)
       (route : RouteE) (params : List (String × String)) (b : Block) (info : BlockInfo),
      isHelpPath path = false →
      matchRoute api.routes (pyUpper method) path = .ok (route, params) →
      findBlock route.mids = some b →
      st.blockedIps (requestIp req0) = some info →
      (info.blocked_until = none ∨ ∃ bu, info.blocked_until = some bu ∧ bu > now) →
      dispatch api st method path req0 now =
        ⟨st, some (failureOf ⟨403, info.message, []⟩), false⟩) ∧
    (let d1 := dispatch escApi MidState.empty "GET" "/r" rlReq 0
     let d2 := dispatch escApi d1.state "GET" "/r" rlReq 10
     let d3 := dispatch escApi d2.state "GET" "/r" rlReq 20
     let d4 := dispatch escApi d3.state "GET" "/s" rlReq 25
     d1.resp = some ⟨"failure", 401, none, some "Unauthorized"⟩ ∧
     d2.resp = some ⟨"failure", 401, none, some "Unauthorized"⟩ ∧
     d3.resp = some (failureOf ⟨403, "Blocked IP.", []⟩) ∧
     d3.state.blockedIps "9.9.9.9" = some ⟨none, "Blocked IP.", none⟩ ∧
     d4.resp = some (failureOf ⟨403, "Blocked IP.", []⟩) ∧
     d4.ranHandler = false) := by
  constructor
  · intro api st method path req0 now route params b info hh hmatch hblock hinfo hbu
    have hm : route.mids.isEmpty = false := findBlock_nonempty hblock
    unfold dispatch
    rw [hh]
    simp only [Bool.false_eq_true, if_false, hmatch]
    have hip : requestIp (mkDispatchRequest req0 method path params) = requestIp req0 := rfl
    have hb1 := enforceIpBlock_blocked st route.mids
      (mkDispatchRequest req0 method path params) now none b info
      hblock (hip ▸ hinfo) hbu
    have hb2 := enforceIpBlock_blocked st route.mids
      (mkDispatchRequest req0 method path params) now (some 403) b info
      hblock (hip ▸ hinfo) hbu
    rw [if_pos (by simp [hm]), hb1]
    simp [handleErrorBranch, hm, hb2]
  · exact ⟨rfl, rfl, rfl, rfl, rfl, rfl⟩

/-- Witness for C1 on the `/s` route of the escalation API with 9.9.9.9
already blocked. -/
theorem ip_block_rejects_before_handler_witness :
    dispatch escApi blockedIpState "GET" "/s" rlReq 5 =
      ⟨blockedIpState, some (failureOf ⟨403, "Blocked IP.", []⟩), false⟩ :=
  ip_block_rejects_before_handler.1 escApi blockedIpState "GET" "/s" rlReq 5
    ⟨"GET", "/s", [.block b401], fun _ => .ok ⟨"success", 200, none, none⟩⟩ []
    b401 ⟨none, "Blocked IP.", none⟩ rfl rfl rfl rfl (Or.inl rfl)

/-- C10: a request whose path is `/help` or begins with `/help/` is answered
by invoking the introspection handler directly: the middleware state is
returned unchanged (no IP-block, token-auth or rate-limit check mutates it)
and the response is the handler's own envelope, whatever middleware is
configured and whatever the state holds. -/
theorem help_bypasses_middleware :
    ∀ (api : APIModel) (st : MidState) (method path : String) (req0 : Request) (now : Int),
    isHelpPath path = true →
    (dispatch api st method path req0 now).state = st ∧
    (dispatch api st method path req0 now).ranHandler = true ∧
    (dispatch api st method path req0 now).resp =
      (match (if path = "/help" then api.helpMain else api.helpDetail)
          (mkDispatchRequest req0 method path
            (if path = "/help" then [] else [("endpoint", pyDropLeft path 6)])) with
       | .ok r => some r
       | _ => none) := by
  intro api st method path req0 now hh
  unfold dispatch
  simp only [hh, if_true]
  cases hout : (if path = "/help" then api.helpMain else api.helpDetail)
      (mkDispatchRequest req0 method path
        (if path = "/help" then [] else [("endpoint", pyDropLeft path 6)])) with
  | ok r => simp [hout]
  | raiseErr e => simp [hout]
  | raiseTypeError m => simp [hout]
  | raiseOther m => simp [hout]

/-- Witness for C10: `/help` from the blocked IP, middleware configured,
leaves the state untouched and answers from the help handler. -/
theorem help_bypasses_middleware_witness :
    (dispatch escApi blockedIpState "GET" "/help" rlReq 0).state = blockedIpState ∧
    (dispatch escApi blockedIpState "GET" "/help" rlReq 0).ranHandler = true ∧
    (dispatch escApi blockedIpState "GET" "/help" rlReq 0).resp =
      some ⟨"success", 200, none, some "help"⟩ := by
  have h := help_bypasses_middleware escApi blockedIpState "GET" "/help" rlReq 0 rfl
  exact ⟨h.1, h.2.1, h.2.2⟩

end DispatchClaims

section TransportClaims

/-- C8 counterexample: when the header terminator never arrives the
connection is closed with no response written at all, which is not a
400-class response. -/
theorem transport_no_terminator_counterexample :
    handleClient .noTerminator = .closedNoResponse ∧
    is400Class (handleClient .noTerminator) = false :=
  ⟨rfl, rfl⟩

/-- C8 (amended): a connection whose bytes never contain the blank-line
header terminator is closed without any response and without dispatching;
a request line with fewer than three space-separated tokens is answered
with a 400 simple response, also without dispatching. -/
theorem transport_malformed_handling :
    handleClient .noTerminator = .closedNoResponse ∧
    (∀ text : String,
      (pySplitSpace2 (((splitCRLF text.data).map String.mk).headD "")).length < 3 →
      ∃ b, handleClient (.headerData text) = .simpleResponse 400 b ∧
        ∀ m t v h c, handleClient (.headerData text) ≠ .dispatched m t v h c) := by
  refine ⟨rfl, ?_⟩
  intro text hlen
  simp only [handleClient]
  by_cases hfl : ((splitCRLF text.data).map String.mk).headD "" = ""
  · rw [if_pos hfl]
    exact ⟨"Bad Request: empty request line", rfl, fun m t v h c hcon => by cases hcon⟩
  · rw [if_neg hfl]
    rcases hs : pySplitSpace2 (((splitCRLF text.data).map String.mk).headD "")
        with _ | ⟨m1, _ | ⟨m2, _ | ⟨m3, rest⟩⟩⟩
    · refine ⟨"Bad Request: invalid request line", by simp [hs], fun m t v h c => by simp [hs]⟩
    · refine ⟨"Bad Request: invalid request line", by simp [hs], fun m t v h c => by simp [hs]⟩
    · refine ⟨"Bad Request: invalid request line", by simp [hs], fun m t v h c => by simp [hs]⟩
    · rw [hs] at hlen
      simp at hlen
      omega

/-- Witness for C8 at the two-token request line `GET /`. -/
theorem transport_malformed_handling_witness :
    ∃ b, handleClient (.headerData "GET /\r\n\r\n") = .simpleResponse 400 b ∧
      ∀ m t v h c, handleClient (.headerData "GET /\r\n\r\n") ≠ .dispatched m t v h c :=
  transport_malformed_handling.2 "GET /\r\n\r\n" (by decide)

end TransportClaims

section EnvelopeClaims

/-- C9: a success envelope with data `(lbrace)"a": 1(rbrace)` built via
`response.success`, serialized to the wire JSON body exactly as
`_send_response` does and parsed back, yields status `success`, code 200,
data `(lbrace)"a": 1(rbrace)` and a null message. -/
theorem success_envelope_roundtrip :
    (wireBody (responseSuccess none none (some (.objV [("a", .intV 1)])))).bind jsonLoads =
      some (.objV [("status", .strV "success"), ("code", .intV 200),
                   ("data", .objV [("a", .intV 1)]), ("message", .nullV)]) := rfl

end EnvelopeClaims

end PyApi
